import Mathlib

/-!
Verification of the backend model items of the mirage repository.

The development embeds the two model-item modules
(`src/backend/models/items.py` and `harmonyqml/backend/model/items.py`)
shallowly:

* Python `datetime` values become integer timestamps (`PyDate`);
  chronological comparison is integer comparison.
* Python `str` values stay `String`, but every operation used by the code
  (`<`, `==`, `.lower()`, slicing `[1:]`, truthiness of `or`) is given an
  executable definition over the underlying character list, mirroring
  Python's code-point semantics.  `Char.toLower` only lowercases ASCII
  letters, which matches Python on all identifiers appearing here.
* Python tuple comparison (used by `Room.__lt__` and `Member.__lt__`)
  becomes an explicit lexicographic step `lexStep`.
* Opaque external values (`nio.Event`, `asyncio.Task`, exception types,
  `Path`, …) are represented by `String` placeholders; none of the
  verified code inspects them.
-/

/-- Python `datetime` values, modelled as integer timestamps. -/
abbrev PyDate := Int

/-- `ZeroDate = datetime.fromtimestamp(0)`. -/
def ZeroDate : PyDate := 0

/-- Python string comparison `s < t`: lexicographic on code points, a
proper prefix is smaller. -/
def charListLt : List Char → List Char → Bool
  | [], [] => false
  | [], _ :: _ => true
  | _ :: _, [] => false
  | a :: s, b :: t =>
    if a.toNat < b.toNat then true
    else if a.toNat = b.toNat then charListLt s t
    else false

/-- Python `a < b` on strings. -/
def strLt (a b : String) : Bool := charListLt a.data b.data

/-- Python `a == b` on strings (used inside tuple comparison). -/
def strEqB (a b : String) : Bool := a.data == b.data

/-- Python `a < b` on integers (and on `datetime` via timestamps). -/
def intLt (a b : Int) : Bool := decide (a < b)

/-- Python `a < b` on booleans: `False < True`. -/
def boolLt (a b : Bool) : Bool := !a && b

/-- Python `s.lower()`; `Char.toLower` lowercases the ASCII range. -/
def pyLower (s : String) : String := ⟨s.data.map Char.toLower⟩

/-- Python `s or t` for strings: `t` when `s` is empty (falsy), else `s`. -/
def pyOr (s t : String) : String := if s = "" then t else s

/-- One step of Python tuple comparison `(x, rest...) < (y, rest'...)`:
true when `x < y`, or `x == y` and the remaining components compare
less-than. -/
def lexStep (lt eq rest : Bool) : Bool := lt || (eq && rest)

/-- `TypeSpecifier` enum of `src/backend/models/items.py`. -/
inductive TypeSpecifier where
  | Unset
  | ProfileChange
  | MembershipChange
  deriving DecidableEq

/-- `UploadStatus` enum of `src/backend/models/items.py`. -/
inductive UploadStatus where
  | Uploading
  | Caching
  | Error
  deriving DecidableEq

/-- `Account` dataclass (`src/backend/models/items.py`). -/
structure Account where
  id : String
  display_name : String := ""
  avatar_url : String := ""
  first_sync_done : Bool := false
  profile_updated : PyDate := ZeroDate

/-- `Room` dataclass (`src/backend/models/items.py`). -/
structure Room where
  id : String
  given_name : String := ""
  display_name : String := ""
  main_alias : String := ""
  avatar_url : String := ""
  plain_topic : String := ""
  topic : String := ""
  inviter_id : String := ""
  inviter_name : String := ""
  inviter_avatar : String := ""
  left : Bool := false
  typing_members : List String := []
  federated : Bool := true
  encrypted : Bool := false
  invite_required : Bool := true
  guests_allowed : Bool := true
  can_invite : Bool := false
  can_send_messages : Bool := false
  can_set_name : Bool := false
  can_set_topic : Bool := false
  can_set_avatar : Bool := false
  can_set_encryption : Bool := false
  can_set_join_rules : Bool := false
  can_set_guest_access : Bool := false
  last_event_date : PyDate := ZeroDate

/-- `Member` dataclass (`src/backend/models/items.py`). -/
structure Member where
  id : String
  display_name : String := ""
  avatar_url : String := ""
  typing : Bool := false
  power_level : Int := 0
  invited : Bool := false
  profile_updated : PyDate := ZeroDate

/-- `Upload` dataclass (`src/backend/models/items.py`).  `task`,
`monitor`, `filepath` and the exception type in `error` are external
opaque values, represented by strings; `speed` is a Python float;
`start_date` defaults to `datetime.now()` in Python, so it carries no
default here. -/
structure Upload where
  id : String
  task : String
  monitor : String
  filepath : String
  total_size : Int := 0
  uploaded : Int := 0
  speed : Float := 0
  time_left : Int := 0
  status : UploadStatus := UploadStatus.Uploading
  error : String := "NoneType"
  error_args : List String := []
  start_date : PyDate

/-- `Event` dataclass (`src/backend/models/items.py`).  `source` is an
opaque `Optional[nio.Event]`, `local_event_type` an opaque
`Optional[Type[nio.Event]]`; `__post_init__` fills `inline_content`
through the external HTML processor, which is out of the verified scope,
so `inline_content` stays a plain field. -/
structure Event where
  id : String
  event_id : String
  source : Option String
  date : PyDate
  sender_id : String
  sender_name : String
  sender_avatar : String
  content : String := ""
  inline_content : String := ""
  reason : String := ""
  type_specifier : TypeSpecifier := TypeSpecifier.Unset
  target_id : String := ""
  target_name : String := ""
  target_avatar : String := ""
  is_local_echo : Bool := false
  local_event_type : Option String := none
  media_url : String := ""
  media_title : String := ""
  media_width : Int := 0
  media_height : Int := 0
  media_duration : Int := 0
  media_size : Int := 0
  media_mime : String := ""
  media_crypt_dict : List (String × String) := []
  thumbnail_url : String := ""
  thumbnail_width : Int := 0
  thumbnail_height : Int := 0
  thumbnail_crypt_dict : List (String × String) := []

/-- `Device` dataclass (`src/backend/models/items.py`, unused by the app). -/
structure Device where
  id : String
  ed25519_key : String
  trusted : Bool := false
  blacklisted : Bool := false
  display_name : String := ""
  last_seen_ip : String := ""
  last_seen_date : String := ""

/-- The name sort key of `Account.__lt__`:
`(self.display_name or self.id[1:]).lower()`. -/
def accountNameKey (a : Account) : String :=
  pyLower (pyOr a.display_name (a.id.drop 1))

/-- `Account.__lt__`: sort by display name or user ID. -/
def Account.lt (a b : Account) : Bool :=
  strLt (accountNameKey a) (accountNameKey b)

/-- The name sort key of `Room.__lt__`:
`(self.display_name or self.id).lower()`. -/
def roomNameKey (r : Room) : String :=
  pyLower (pyOr r.display_name r.id)

/-- `Room.__lt__`: Python tuple comparison
`(self.left, other.inviter_id, other.last_event_date, name)
 < (other.left, self.inviter_id, self.last_event_date, other_name)`. -/
def Room.lt (a b : Room) : Bool :=
  lexStep (boolLt a.left b.left) (a.left == b.left)
    (lexStep (strLt b.inviter_id a.inviter_id) (strEqB b.inviter_id a.inviter_id)
      (lexStep (intLt b.last_event_date a.last_event_date)
        (b.last_event_date == a.last_event_date)
        (strLt (roomNameKey a) (roomNameKey b))))

/-- The name sort key of `Member.__lt__`:
`(self.display_name or self.id[1:]).lower()`. -/
def memberNameKey (m : Member) : String :=
  pyLower (pyOr m.display_name (m.id.drop 1))

/-- `Member.__lt__`: Python tuple comparison
`(self.invited, other.power_level, name)
 < (other.invited, self.power_level, other_name)`. -/
def Member.lt (a b : Member) : Bool :=
  lexStep (boolLt a.invited b.invited) (a.invited == b.invited)
    (lexStep (intLt b.power_level a.power_level) (b.power_level == a.power_level)
      (strLt (memberNameKey a) (memberNameKey b)))

/-- `Upload.__lt__`: `self.start_date > other.start_date`. -/
def Upload.lt (a b : Upload) : Bool := intLt b.start_date a.start_date

/-- `Event.__lt__`: `self.date > other.date`. -/
def Event.lt (a b : Event) : Bool := intLt b.date a.date

/-- A dictionary value appearing in a serialized `Event`. -/
inductive PyVal where
  | str : String → PyVal
  | int : Int → PyVal
  | bool : Bool → PyVal
  | date : PyDate → PyVal
  | optStr : Option String → PyVal
  | tspec : TypeSpecifier → PyVal
  | dict : List (String × String) → PyVal
  deriving DecidableEq

/-- Modelled from the spec: `ModelItem.serialized` applied to an `Event`
(the `ModelItem` base class in `src/backend/models/model_item.py` is not
among the sources).  Per the spec's Record model a Record is a named
tuple of typed fields, so the base serialization maps every declared
field name to its value, in declaration order. -/
def Event.superSerialized (e : Event) : List (String × PyVal) :=
  [("id", .str e.id),
   ("event_id", .str e.event_id),
   ("source", .optStr e.source),
   ("date", .date e.date),
   ("sender_id", .str e.sender_id),
   ("sender_name", .str e.sender_name),
   ("sender_avatar", .str e.sender_avatar),
   ("content", .str e.content),
   ("inline_content", .str e.inline_content),
   ("reason", .str e.reason),
   ("type_specifier", .tspec e.type_specifier),
   ("target_id", .str e.target_id),
   ("target_name", .str e.target_name),
   ("target_avatar", .str e.target_avatar),
   ("is_local_echo", .bool e.is_local_echo),
   ("local_event_type", .optStr e.local_event_type),
   ("media_url", .str e.media_url),
   ("media_title", .str e.media_title),
   ("media_width", .int e.media_width),
   ("media_height", .int e.media_height),
   ("media_duration", .int e.media_duration),
   ("media_size", .int e.media_size),
   ("media_mime", .str e.media_mime),
   ("media_crypt_dict", .dict e.media_crypt_dict),
   ("thumbnail_url", .str e.thumbnail_url),
   ("thumbnail_width", .int e.thumbnail_width),
   ("thumbnail_height", .int e.thumbnail_height),
   ("thumbnail_crypt_dict", .dict e.thumbnail_crypt_dict)]

/-- Python `del dct[key]` on the serialization dictionary: drop the entry
with the given key. -/
def delKey (d : List (String × PyVal)) (k : String) : List (String × PyVal) :=
  d.filter (fun p => p.1 != k)

/-- `Event.serialized` (`src/backend/models/items.py`): the base
serialization with the `source` and `local_event_type` keys deleted. -/
def Event.serialized (e : Event) : List (String × PyVal) :=
  delKey (delKey e.superSerialized "source") "local_event_type"

/-- Field metadata of a `ListItem` subclass of
`harmonyqml/backend/model/items.py` (declared fields, the
`_required_init_values` set, the `_constant` set), also usable for a
dataclass of `src/backend/models/items.py` (fields lacking a default are
required, nothing is constant). -/
structure Schema where
  fieldNames : List String
  required : List String
  constant : List String

/-- Modelled from the spec: `construct(fields)` of the Record Schema (the
`ListItem`/`ModelItem` base classes are not among the sources) — it fails
with `SchemaError` when a required field is missing or an unknown field
is supplied; only the supplied field names matter for this contract. -/
def construct (s : Schema) (supplied : List String) : Except String Unit :=
  if ∀ r ∈ s.required, r ∈ supplied then
    if ∀ k ∈ supplied, k ∈ s.fieldNames then Except.ok ()
    else Except.error "SchemaError"
  else Except.error "SchemaError"

/-- Modelled from the spec: `set(field, value)` of the Record Schema (the
`ListItem`/`ModelItem` base classes are not among the sources) — on a
constructed record it returns the possibly-updated field assignment
together with an optional error; a write to a constant field fails with
`ImmutableFieldError` and leaves the fields unchanged. -/
def applySet (s : Schema) (fields : List (String × String)) (name val : String) :
    List (String × String) × Option String :=
  if name ∈ s.constant then (fields, some "ImmutableFieldError")
  else (fields.map (fun p => if p.1 = name then (name, val) else p), none)

/-- `Account` of `harmonyqml/backend/model/items.py`. -/
def hqAccount : Schema :=
  { fieldNames := ["userId", "roomCategories"],
    required := ["userId", "roomCategories"],
    constant := ["userId", "roomCategories"] }

/-- `RoomCategory` of `harmonyqml/backend/model/items.py`. -/
def hqRoomCategory : Schema :=
  { fieldNames := ["name", "rooms", "sortedRooms"],
    required := ["name", "rooms", "sortedRooms"],
    constant := ["name", "rooms", "sortedRooms"] }

/-- `Room` of `harmonyqml/backend/model/items.py`. -/
def hqRoom : Schema :=
  { fieldNames := ["roomId", "displayName", "topic", "lastEventDateTime",
                   "typingMembers", "members", "inviter", "leftEvent"],
    required := ["roomId", "displayName", "members"],
    constant := ["roomId", "members"] }

/-- `RoomEvent` of `harmonyqml/backend/model/items.py`. -/
def hqRoomEvent : Schema :=
  { fieldNames := ["eventId", "type", "dict", "dateTime", "isLocalEcho"],
    required := ["eventId", "type", "dict", "dateTime"],
    constant := ["type"] }

/-- `User` of `harmonyqml/backend/model/items.py`. -/
def hqUser : Schema :=
  { fieldNames := ["userId", "displayName", "avatarUrl", "statusMessage",
                   "devices"],
    required := ["userId", "devices"],
    constant := ["userId", "devices"] }

/-- `Device` of `harmonyqml/backend/model/items.py`. -/
def hqDevice : Schema :=
  { fieldNames := ["deviceId", "ed25519Key", "displayName", "trust",
                   "lastSeenIp", "lastSeenDate"],
    required := ["deviceId", "ed25519Key"],
    constant := ["deviceId", "ed25519Key"] }

/-- The `Event` dataclass of `src/backend/models/items.py` viewed as a
schema: the seven fields declared with a bare `field()` have no default
and are required; a dataclass declares no constant field. -/
def eventSchema : Schema :=
  { fieldNames := ["id", "event_id", "source", "date", "sender_id",
                   "sender_name", "sender_avatar", "content",
                   "inline_content", "reason", "type_specifier",
                   "target_id", "target_name", "target_avatar",
                   "is_local_echo", "local_event_type", "media_url",
                   "media_title", "media_width", "media_height",
                   "media_duration", "media_size", "media_mime",
                   "media_crypt_dict", "thumbnail_url", "thumbnail_width",
                   "thumbnail_height", "thumbnail_crypt_dict"],
    required := ["id", "event_id", "source", "date", "sender_id",
                 "sender_name", "sender_avatar"],
    constant := [] }

/-- Modelled from the spec: sorted insertion used by `ListModel.upsert`
(the `ListModel` implementation is not among the sources; the spec's
Collection contract says "insertion position is always the correct
sorted position").  Inserts `x` in front of the first element it
compares less-than. -/
def insertSorted (lt : α → α → Bool) (x : α) : List α → List α
  | [] => [x]
  | y :: ys => if lt x y then x :: y :: ys else y :: insertSorted lt x ys

/-- Sorting a list by repeated sorted insertion; on lists whose elements
are pairwise comparable (as in the concrete scenarios below) this agrees
with any comparison sort, e.g. Python's `sorted`. -/
def sortByLt (lt : α → α → Bool) : List α → List α
  | [] => []
  | x :: xs => insertSorted lt x (sortByLt lt xs)

/-- The amended member ordering, written from the spec's vocabulary for
comparison with `Member.lt`: non-invited members first, then higher
power level first, then the lowercased display name falling back to the
user id without its leading sigil. -/
def memberSpecLt (a b : Member) : Bool :=
  if a.invited ≠ b.invited then !a.invited
  else if a.power_level ≠ b.power_level then decide (a.power_level > b.power_level)
  else strLt (memberNameKey a) (memberNameKey b)

/-- An `Event` with only the required dataclass fields filled in. -/
def mkEvent (i : String) (d : PyDate) : Event :=
  { id := i, event_id := i, source := none, date := d,
    sender_id := "@s:x", sender_name := "s", sender_avatar := "" }

/-- Scenario member `a`, power level 0 (claim C2). -/
def memberA : Member := { id := "a" }

/-- Scenario member `b`, power level 50 (claim C2). -/
def memberB : Member := { id := "b", power_level := 50 }

/-- Scenario member `c`, power level 100 (claim C2). -/
def memberC : Member := { id := "c", power_level := 100 }

/-- Scenario member `d`, power level 75 (claim C2). -/
def memberD : Member := { id := "d", power_level := 75 }

/-- An invited member with the highest power level (claim C3). -/
def memberInv : Member := { id := "@a:x", invited := true, power_level := 100 }

/-- A joined member with the lowest power level (claim C3). -/
def memberJoin : Member := { id := "@b:x", power_level := 0 }

/-- `memberInv` with only the `invited` flag cleared (claim C3). -/
def memberNotInv : Member := { memberInv with invited := false }

/-- An invited, non-left room with a recent last event, whose inviter id
is small in string order (claim C1). -/
def roomA : Room := { id := "!a:x", inviter_id := "@a:x", last_event_date := 100 }

/-- An invited, non-left room with an old last event, whose inviter id
is large in string order (claim C1). -/
def roomB : Room := { id := "!b:x", inviter_id := "@z:x", last_event_date := 0 }

/-- An account whose id starts with the `@` sigil (claim C9). -/
def acctAt : Account := { id := "@alice:x" }

/-- An account whose id differs from `acctAt` only in its first
character (claim C9). -/
def acctBang : Account := { id := "!alice:x" }

theorem charListLt_asymm (a b : List Char) : (charListLt a b && charListLt b a) = false := by
  induction a generalizing b with
  | nil => cases b <;> simp [charListLt]
  | cons x s ih =>
    cases b with
    | nil => simp [charListLt]
    | cons y t =>
      simp only [charListLt]
      by_cases h1 : x.toNat < y.toNat
      · have h2 : ¬ y.toNat < x.toNat := by omega
        have h3 : ¬ y.toNat = x.toNat := by omega
        simp [h1, h2, h3]
      · by_cases h2 : x.toNat = y.toNat
        · have h3 : ¬ y.toNat < x.toNat := by omega
          simp [h1, h2, h3, ih]
        · simp [h1, h2]

theorem charListLt_self (l : List Char) : charListLt l l = false := by
  induction l with
  | nil => rfl
  | cons a s ih => simp [charListLt, ih]

theorem strLt_self (a : String) : strLt a a = false := charListLt_self a.data

theorem strLt_asymm (a b : String) : (strLt a b && strLt b a) = false :=
  charListLt_asymm a.data b.data

theorem strLt_ne (a b : String) (h : strLt a b = true) : (a.data == b.data) = false := by
  by_cases he : a.data = b.data
  · rw [strLt, he, charListLt_self] at h
    exact absurd h (by simp)
  · simpa using he

theorem strLt_and_eq (a b : String) : (strLt a b && strEqB a b) = false := by
  cases h : strLt a b
  · simp
  · simp [strEqB, strLt_ne a b h]

theorem strLt_and_eq' (a b : String) : (strLt a b && strEqB b a) = false := by
  cases h : strLt a b
  · simp
  · have := strLt_ne a b h
    have hne : b.data ≠ a.data := fun he => by simp [he] at this
    simp [strEqB, hne]

theorem intLt_self (a : Int) : intLt a a = false := by simp [intLt]

theorem intLt_asymm (a b : Int) : (intLt a b && intLt b a) = false := by
  simp only [intLt, Bool.and_eq_false_iff, decide_eq_false_iff_not]
  omega

theorem intLt_and_eq (a b : Int) : (intLt a b && (a == b)) = false := by
  cases h : intLt a b
  · simp
  · simp only [intLt, decide_eq_true_eq] at h
    have : a ≠ b := by omega
    simp [this]

theorem intLt_and_eq' (a b : Int) : (intLt a b && (b == a)) = false := by
  cases h : intLt a b
  · simp
  · simp only [intLt, decide_eq_true_eq] at h
    have : b ≠ a := by omega
    simp [this]

theorem boolLt_self (a : Bool) : boolLt a a = false := by cases a <;> rfl

theorem boolLt_asymm (a b : Bool) : (boolLt a b && boolLt b a) = false := by
  cases a <;> cases b <;> rfl

theorem boolLt_and_eq (a b : Bool) : (boolLt a b && (a == b)) = false := by
  cases a <;> cases b <;> rfl

theorem boolLt_and_eq' (a b : Bool) : (boolLt a b && (b == a)) = false := by
  cases a <;> cases b <;> rfl

theorem lexStep_asymm {l1 l2 e1 e2 r1 r2 : Bool}
    (h1 : (l1 && l2) = false) (h2 : (l1 && e2) = false) (h3 : (l2 && e1) = false)
    (h4 : (r1 && r2) = false) :
    (lexStep l1 e1 r1 && lexStep l2 e2 r2) = false := by
  cases l1 <;> cases l2 <;> cases e1 <;> cases e2 <;> simp_all [lexStep]

theorem account_lt_asymm (a b : Account) : (Account.lt a b && Account.lt b a) = false :=
  strLt_asymm (accountNameKey a) (accountNameKey b)

theorem room_lt_asymm (a b : Room) : (Room.lt a b && Room.lt b a) = false := by
  simp only [Room.lt]
  exact lexStep_asymm (boolLt_asymm _ _) (boolLt_and_eq' _ _) (boolLt_and_eq' _ _)
    (lexStep_asymm (strLt_asymm _ _) (strLt_and_eq' _ _) (strLt_and_eq' _ _)
      (lexStep_asymm (intLt_asymm _ _) (intLt_and_eq' _ _) (intLt_and_eq' _ _)
        (strLt_asymm _ _)))

theorem member_lt_asymm (a b : Member) : (Member.lt a b && Member.lt b a) = false := by
  simp only [Member.lt]
  exact lexStep_asymm (boolLt_asymm _ _) (boolLt_and_eq' _ _) (boolLt_and_eq' _ _)
    (lexStep_asymm (intLt_asymm _ _) (intLt_and_eq' _ _) (intLt_and_eq' _ _)
      (strLt_asymm _ _))

theorem upload_lt_asymm (a b : Upload) : (Upload.lt a b && Upload.lt b a) = false := by
  simpa [Upload.lt, Bool.and_comm] using intLt_asymm b.start_date a.start_date

theorem event_lt_asymm (a b : Event) : (Event.lt a b && Event.lt b a) = false := by
  simpa [Event.lt, Bool.and_comm] using intLt_asymm b.date a.date

theorem lookup_delKey (d : List (String × PyVal)) (k k' : String) (h : k' ≠ k) :
    List.lookup k' (delKey d k) = List.lookup k' d := by
  induction d with
  | nil => rfl
  | cons p rest ih =>
    rcases p with ⟨a, v⟩
    by_cases hp : a = k
    · subst hp
      have hne : (k' == a) = false := by simpa using h
      simp only [delKey, List.filter, bne_self_eq_false, List.lookup, hne]
      exact ih
    · have hkeep : (a != k) = true := bne_iff_ne.mpr hp
      cases hak : (k' == a) with
      | true => simp [delKey, List.filter, List.lookup, hkeep, hak]
      | false =>
        simp only [delKey, List.filter, hkeep, List.lookup, hak] at ih ⊢
        exact ih

/-- Claim C1: evaluation of `Room.lt` at a failing input.  `roomA` and
`roomB` are both non-left invited rooms (same invite/join/left state) and
`roomA` has the newer last event, yet the code sorts `roomB` first,
because the second tuple component compares the raw `inviter_id` strings
instead of the membership state; this contradicts the claim (and the
docstring of `Room.__lt__` itself): within the same state rooms should
sort by descending last event date. -/
theorem room_lt_inviter_id_bug :
    roomA.left = false ∧ roomB.left = false ∧
    roomA.inviter_id ≠ "" ∧ roomB.inviter_id ≠ "" ∧
    roomB.last_event_date < roomA.last_event_date ∧
    Room.lt roomA roomB = false ∧ Room.lt roomB roomA = true := by
  decide

/-- Claim C2: sorting the four scenario members by `Member.lt` yields the
descending-power order `c(100), d(75), b(50), a(0)`, and inserting `d`
at its sorted position into the sorted collection `[c, b, a]` yields the
same order, with `d` landing at index 1. -/
theorem member_upsert_scenario :
    (sortByLt Member.lt [memberA, memberB, memberC, memberD]).map Member.id
      = ["c", "d", "b", "a"] ∧
    (insertSorted Member.lt memberD [memberC, memberB, memberA]).map Member.id
      = ["c", "d", "b", "a"] ∧
    (insertSorted Member.lt memberD [memberC, memberB, memberA]).findIdx
      (fun m => m.id == "d") = 1 := by
  decide

/-- Claim C3 counterexample: `memberJoin` (power 0) sorts before
`memberInv` (power 100) because `memberInv` is invited, and flipping only
the `invited` flag (`memberNotInv`) reverses the relative order, so a
field other than power level and name decides the order — refuting
"sorts by power level first; no other field affects the order". -/
theorem member_lt_invited_counterexample :
    memberInv.power_level = 100 ∧ memberJoin.power_level = 0 ∧
    Member.lt memberInv memberJoin = false ∧
    Member.lt memberJoin memberInv = true ∧
    memberNotInv.power_level = memberInv.power_level ∧
    memberNotInv.display_name = memberInv.display_name ∧
    memberNotInv.id = memberInv.id ∧
    Member.lt memberNotInv memberJoin = true := by
  decide

/-- Claim C4: for every two `Event` records, `Event.lt e1 e2` holds
exactly when `e1.date` is strictly greater than `e2.date` — events sort
newest-first by date. -/
theorem event_lt_newest_first (e1 e2 : Event) :
    Event.lt e1 e2 = true ↔ e1.date > e2.date := by
  simp [Event.lt, intLt]

/-- Claim C10: each of the five less-than rules (`Account.lt`, `Room.lt`,
`Member.lt`, `Upload.lt`, `Event.lt`) is irreflexive: no record compares
less than itself. -/
theorem lt_irreflexive :
    (∀ a : Account, Account.lt a a = false) ∧
    (∀ r : Room, Room.lt r r = false) ∧
    (∀ m : Member, Member.lt m m = false) ∧
    (∀ u : Upload, Upload.lt u u = false) ∧
    (∀ e : Event, Event.lt e e = false) := by
  refine ⟨fun a => ?_, fun r => ?_, fun m => ?_, fun u => ?_, fun e => ?_⟩
  · exact strLt_self (accountNameKey a)
  · simp [Room.lt, lexStep, boolLt_self, strLt_self, intLt_self, strEqB]
  · simp [Member.lt, lexStep, boolLt_self, strLt_self, intLt_self]
  · exact intLt_self u.start_date
  · exact intLt_self e.date

/-- Claim C5 (amended): each less-than rule is asymmetric — at most one
of `r1 < r2`, `r2 < r1` holds — but ties under the primary sort keys are
not broken by the identity key: two `Event` records with equal dates are
mutually incomparable whatever their ids. -/
theorem lt_asymmetric_not_total :
    (∀ a b : Account, (Account.lt a b && Account.lt b a) = false) ∧
    (∀ a b : Room, (Room.lt a b && Room.lt b a) = false) ∧
    (∀ a b : Member, (Member.lt a b && Member.lt b a) = false) ∧
    (∀ a b : Upload, (Upload.lt a b && Upload.lt b a) = false) ∧
    (∀ a b : Event, (Event.lt a b && Event.lt b a) = false) ∧
    (∀ e1 e2 : Event, e1.date = e2.date →
      Event.lt e1 e2 = false ∧ Event.lt e2 e1 = false) := by
  refine ⟨account_lt_asymm, room_lt_asymm, member_lt_asymm, upload_lt_asymm,
    event_lt_asymm, fun e1 e2 h => ?_⟩
  rw [Event.lt, Event.lt, h]
  exact ⟨intLt_self e2.date, intLt_self e2.date⟩

/-- Witness for claim C5's amended theorem: the tie conjunct applied to
two concrete events with equal dates. -/
theorem lt_asymmetric_not_total_witness :
    (mkEvent "$e1:x" 5).date = (mkEvent "$e2:x" 5).date ∧
    (Event.lt (mkEvent "$e1:x" 5) (mkEvent "$e2:x" 5) = false ∧
      Event.lt (mkEvent "$e2:x" 5) (mkEvent "$e1:x" 5) = false) :=
  ⟨rfl, lt_asymmetric_not_total.2.2.2.2.2 (mkEvent "$e1:x" 5) (mkEvent "$e2:x" 5) rfl⟩

/-- Claim C5 counterexample: two `Event` records with distinct identity
keys and equal dates, where neither sorts before the other — refuting
"exactly one of `r1 < r2`, `r2 < r1` holds because ties are broken by
the identity key". -/
theorem event_lt_tie_counterexample :
    (mkEvent "$e1:x" 5).id ≠ (mkEvent "$e2:x" 5).id ∧
    Event.lt (mkEvent "$e1:x" 5) (mkEvent "$e2:x" 5) = false ∧
    Event.lt (mkEvent "$e2:x" 5) (mkEvent "$e1:x" 5) = false := by
  decide

/-- Claim C3 (amended): `Member.lt` sorts non-invited members before
invited ones, then by power level (higher first), then case-insensitively
by display name falling back to the user ID without its leading sigil —
stated as equality with the spec-style ordering `memberSpecLt` — and no
field outside `invited`, `power_level`, `display_name` and `id`
influences the relative order of two members. -/
theorem member_lt_characterization :
    (∀ a b : Member, Member.lt a b = memberSpecLt a b) ∧
    (∀ a b a' b' : Member,
      a'.invited = a.invited → a'.power_level = a.power_level →
      a'.display_name = a.display_name → a'.id = a.id →
      b'.invited = b.invited → b'.power_level = b.power_level →
      b'.display_name = b.display_name → b'.id = b.id →
      Member.lt a' b' = Member.lt a b) := by
  constructor
  · intro a b
    by_cases hi : a.invited = b.invited
    · by_cases hp : a.power_level = b.power_level
      · simp [Member.lt, memberSpecLt, hi, hp, lexStep, boolLt_self, intLt_self]
      · have hne : (b.power_level == a.power_level) = false := by
          simpa using fun he => hp he.symm
        simp [Member.lt, memberSpecLt, hi, hp, hne, lexStep, boolLt_self,
          intLt, gt_iff_lt]
    · cases ha : a.invited <;> cases hb : b.invited <;>
        simp_all [Member.lt, memberSpecLt, lexStep, boolLt]
  · intro a b a' b' h1 h2 h3 h4 h5 h6 h7 h8
    simp [Member.lt, memberNameKey, h1, h2, h3, h4, h5, h6, h7, h8]

/-- Witness for claim C3's amended theorem: changing a field outside the
four order-relevant ones (here `avatar_url`) leaves the relative order
of two concrete members unchanged. -/
theorem member_lt_characterization_witness :
    Member.lt { memberInv with avatar_url := "mxc" } memberJoin
      = Member.lt memberInv memberJoin :=
  member_lt_characterization.2 memberInv memberJoin
    { memberInv with avatar_url := "mxc" } memberJoin
    rfl rfl rfl rfl rfl rfl rfl rfl

/-- Claim C6: constructing a record with a required field missing fails
with `SchemaError`, and construction succeeds when all required fields
(and only declared ones) are supplied; `Account` of the harmonyqml model
requires `userId` and `roomCategories`, and the `Event` dataclass
requires its seven default-less fields. -/
theorem construct_required_fields :
    (∀ (s : Schema) (supplied : List String),
      ((∃ r ∈ s.required, r ∉ supplied) →
        construct s supplied = Except.error "SchemaError") ∧
      ((∀ r ∈ s.required, r ∈ supplied) → (∀ k ∈ supplied, k ∈ s.fieldNames) →
        construct s supplied = Except.ok ())) ∧
    hqAccount.required = ["userId", "roomCategories"] ∧
    eventSchema.required = ["id", "event_id", "source", "date", "sender_id",
      "sender_name", "sender_avatar"] := by
  refine ⟨fun s supplied => ⟨?_, ?_⟩, rfl, rfl⟩
  · rintro ⟨r, hr, hnot⟩
    unfold construct
    rw [if_neg (fun h => hnot (h r hr))]
  · intro h1 h2
    unfold construct
    rw [if_pos h1, if_pos h2]

/-- Witness for claim C6: constructing an `Event` from only `id` and
`event_id` fails with `SchemaError`; constructing an `Account` with both
its required fields succeeds. -/
theorem construct_required_fields_witness :
    (∃ r ∈ eventSchema.required, r ∉ (["id", "event_id"] : List String)) ∧
    construct eventSchema ["id", "event_id"] = Except.error "SchemaError" ∧
    (∀ r ∈ hqAccount.required, r ∈ (["userId", "roomCategories"] : List String)) ∧
    construct hqAccount ["userId", "roomCategories"] = Except.ok () :=
  ⟨by decide,
   (construct_required_fields.1 eventSchema ["id", "event_id"]).1 (by decide),
   by decide,
   (construct_required_fields.1 hqAccount ["userId", "roomCategories"]).2
     (by decide) (by decide)⟩

/-- Claim C7: a write to a constant field fails with
`ImmutableFieldError` and leaves the record's fields unchanged, and the
identity fields are declared constant — `roomId` for the harmonyqml
`Room`, `deviceId` for the harmonyqml `Device`, `userId` for the
harmonyqml `Account` — so an identity field never changes after
construction. -/
theorem set_constant_field_immutable :
    (∀ (s : Schema) (fields : List (String × String)) (name val : String),
      name ∈ s.constant →
      applySet s fields name val = (fields, some "ImmutableFieldError")) ∧
    "roomId" ∈ hqRoom.constant ∧ "deviceId" ∈ hqDevice.constant ∧
    "userId" ∈ hqAccount.constant := by
  refine ⟨fun s fields name val h => ?_, by decide, by decide, by decide⟩
  unfold applySet
  rw [if_pos h]

/-- Witness for claim C7: writing a fresh value to the constant `roomId`
field of a constructed harmonyqml `Room` fails with
`ImmutableFieldError` and leaves the field assignment unchanged. -/
theorem set_constant_field_immutable_witness :
    "roomId" ∈ hqRoom.constant ∧
    applySet hqRoom [("roomId", "!r:x")] "roomId" "!other:x"
      = ([("roomId", "!r:x")], some "ImmutableFieldError") :=
  ⟨by decide,
   set_constant_field_immutable.1 hqRoom [("roomId", "!r:x")] "roomId" "!other:x"
     (by decide)⟩

/-- Claim C8: for every `Event`, the serialized dictionary contains
neither the key `source` nor the key `local_event_type`, while every
other declared field remains present with its value from the base
serialization. -/
theorem event_serialized_drops_source (e : Event) (k : String)
    (h1 : k ≠ "source") (h2 : k ≠ "local_event_type") :
    (Event.serialized e).map Prod.fst
      = ["id", "event_id", "date", "sender_id", "sender_name",
         "sender_avatar", "content", "inline_content", "reason",
         "type_specifier", "target_id", "target_name", "target_avatar",
         "is_local_echo", "media_url", "media_title", "media_width",
         "media_height", "media_duration", "media_size", "media_mime",
         "media_crypt_dict", "thumbnail_url", "thumbnail_width",
         "thumbnail_height", "thumbnail_crypt_dict"] ∧
    List.lookup "source" (Event.serialized e) = none ∧
    List.lookup "local_event_type" (Event.serialized e) = none ∧
    List.lookup k (Event.serialized e) = List.lookup k e.superSerialized :=
  ⟨rfl, rfl, rfl,
   (lookup_delKey _ "local_event_type" k h2).trans
     (lookup_delKey _ "source" k h1)⟩

/-- Witness for claim C8: on a concrete event, the `content` entry of
the serialized dictionary agrees with the base serialization. -/
theorem event_serialized_drops_source_witness :
    (("content" : String) ≠ "source" ∧
      ("content" : String) ≠ "local_event_type") ∧
    List.lookup "content" (Event.serialized (mkEvent "$e:x" 0))
      = List.lookup "content" (Event.superSerialized (mkEvent "$e:x" 0)) :=
  ⟨⟨by decide, by decide⟩,
   (event_serialized_drops_source (mkEvent "$e:x" 0) "content"
     (by decide) (by decide)).2.2.2⟩

/-- Claim C9: when `display_name` is empty, the sort key of `Account`
and `Member` is the lowercased id with its first character stripped;
hence two such records whose ids agree after the first character are
tied on the name key (and two such accounts are mutually incomparable),
and replacing the leading sigil of the id never changes the outcome of
the comparison. -/
theorem sort_key_strips_sigil :
    (∀ a : Account, a.display_name = "" →
      accountNameKey a = pyLower (a.id.drop 1)) ∧
    (∀ m : Member, m.display_name = "" →
      memberNameKey m = pyLower (m.id.drop 1)) ∧
    (∀ a1 a2 : Account, a1.display_name = "" → a2.display_name = "" →
      a1.id.drop 1 = a2.id.drop 1 →
      accountNameKey a1 = accountNameKey a2 ∧
      Account.lt a1 a2 = false ∧ Account.lt a2 a1 = false) ∧
    (∀ m1 m2 : Member, m1.display_name = "" → m2.display_name = "" →
      m1.id.drop 1 = m2.id.drop 1 →
      memberNameKey m1 = memberNameKey m2) ∧
    (∀ (a b : Account) (s : String), a.display_name = "" →
      s.drop 1 = a.id.drop 1 →
      Account.lt { a with id := s } b = Account.lt a b ∧
      Account.lt b { a with id := s } = Account.lt b a) ∧
    (∀ (m x : Member) (s : String), m.display_name = "" →
      s.drop 1 = m.id.drop 1 →
      Member.lt { m with id := s } x = Member.lt m x ∧
      Member.lt x { m with id := s } = Member.lt x m) := by
  have hacct : ∀ a : Account, a.display_name = "" →
      accountNameKey a = pyLower (a.id.drop 1) := by
    intro a h
    simp [accountNameKey, pyOr, h]
  have hmem : ∀ m : Member, m.display_name = "" →
      memberNameKey m = pyLower (m.id.drop 1) := by
    intro m h
    simp [memberNameKey, pyOr, h]
  refine ⟨hacct, hmem, ?_, ?_, ?_, ?_⟩
  · intro a1 a2 h1 h2 h3
    have hk : accountNameKey a1 = accountNameKey a2 := by
      rw [hacct a1 h1, hacct a2 h2, h3]
    exact ⟨hk, by simp [Account.lt, hk, strLt_self],
      by simp [Account.lt, hk, strLt_self]⟩
  · intro m1 m2 h1 h2 h3
    rw [hmem m1 h1, hmem m2 h2, h3]
  · intro a b s h hs
    have k1 : accountNameKey { a with id := s } = pyLower (s.drop 1) :=
      hacct { a with id := s } h
    have k2 : accountNameKey a = pyLower (a.id.drop 1) := hacct a h
    have hk : accountNameKey { a with id := s } = accountNameKey a := by
      rw [k1, hs, ← k2]
    exact ⟨by simp [Account.lt, hk], by simp [Account.lt, hk]⟩
  · intro m x s h hs
    have k1 : memberNameKey { m with id := s } = pyLower (s.drop 1) :=
      hmem { m with id := s } h
    have k2 : memberNameKey m = pyLower (m.id.drop 1) := hmem m h
    have hk : memberNameKey { m with id := s } = memberNameKey m := by
      rw [k1, hs, ← k2]
    exact ⟨by simp [Member.lt, hk], by simp [Member.lt, hk]⟩

/-- Witness for claim C9: the accounts `acctAt` (`@alice:x`) and
`acctBang` (`!alice:x`) have empty display names and ids differing only
in the leading sigil; their name keys coincide and neither compares
less than the other. -/
theorem sort_key_strips_sigil_witness :
    (acctAt.display_name = "" ∧ acctBang.display_name = "" ∧
      acctAt.id.drop 1 = acctBang.id.drop 1) ∧
    (accountNameKey acctAt = accountNameKey acctBang ∧
      Account.lt acctAt acctBang = false ∧
      Account.lt acctBang acctAt = false) :=
  ⟨⟨rfl, rfl, by decide⟩,
   sort_key_strips_sigil.2.2.1 acctAt acctBang rfl rfl (by decide)⟩
